import Mathlib

/-!
Shallow embedding of the PodPivo backend (backend/server.py): the
authentication subsystem (password hashing, JWT issue/verify, identity
resolution) and the per-user list membership service, over an explicit
in-memory model of the MongoDB collections.

Conventions of the embedding:
* times are natural numbers (seconds since epoch); `datetime.now` values are
  passed explicitly to the operations that read the clock;
* the fresh `uuid.uuid4()` identifiers are passed explicitly;
* each MongoDB collection is a list of documents in insertion order
  (`insert_one` appends, `find_one` scans in order, `delete_one` removes the
  first match);
* `raise HTTPException(...)` becomes an `Except HTTPError` result, and an
  operation that mutates the database also returns the post-state.
-/

namespace PodPivo

/-- Response model `User` (pydantic): id, email, name, created_at.
It has no password hash field; `User(**stored)` keeps only these declared
fields and ignores the extra `password_hash` key. -/
structure User where
  id : String
  email : String
  name : String
  created_at : Nat
deriving Repr, DecidableEq

/-- Document stored in the `users` collection by `register`: the `User`
fields plus `password_hash`. -/
structure StoredUser where
  id : String
  email : String
  name : String
  created_at : Nat
  password_hash : String
deriving Repr, DecidableEq

/-- The `Genre` model: id, name, name_ru. -/
structure Genre where
  id : String
  name : String
  name_ru : String
deriving Repr, DecidableEq

/-- The `Movie` model. The Python `rating: float` is modelled as a rational
number; no claim depends on float arithmetic. -/
structure Movie where
  id : String
  title : String
  title_ru : String
  description : String
  description_ru : String
  year : Int
  duration : Int
  genre_ids : List String
  poster_url : String
  trailer_url : String
  video_url : Option String
  rating : Rat
  created_at : Nat
deriving Repr, DecidableEq

/-- The `UserList` model: one list-membership document. The source comment
documents list_type as "favorites" or "watched" but the field is a plain
string. -/
structure UserList where
  id : String
  user_id : String
  movie_id : String
  list_type : String
  created_at : Nat
deriving Repr, DecidableEq

/-- In-memory model of the MongoDB database: one list per collection, in
insertion order. -/
structure DB where
  users : List StoredUser
  genres : List Genre
  movies : List Movie
  user_lists : List UserList
deriving Repr, DecidableEq

/-- Model of fastapi.HTTPException: status code and detail message. -/
structure HTTPError where
  status_code : Nat
  detail : String
deriving Repr, DecidableEq

/-- Model of passlib bcrypt `pwd_context.hash`: an injective one-way tag of
the password (salt elided, so hashing is deterministic in the model). -/
def hash_password (password : String) : String :=
  "bcrypt$" ++ password

/-- Model of `pwd_context.verify`: recompute and compare. With the
deterministic hash model, `verify_password p (hash_password p)` is true. -/
def verify_password (plain_password hashed_password : String) : Bool :=
  hash_password plain_password == hashed_password

/-- Claim set carried by a token: the `user_id` claim (absent in a general
token) and the `exp` timestamp in seconds. -/
structure Payload where
  user_id : Option String
  exp : Nat
deriving Repr, DecidableEq

/-- Symbolic encoded token: either a payload honestly signed under a key
(`jwt.encode`), or a one-byte modification of another encoded token.
This is the ideal-MAC (symbolic) model of HMAC-SHA256: a modified encoding
is never a valid signature under any key. -/
inductive Token where
  | signed (payload : Payload) (key : String)
  | tampered (t : Token) (byte_pos : Nat) (new_byte : Nat)
deriving Repr, DecidableEq

/-- The JWT_SECRET default from the source (the environment override is
elided; the verifier and the issuer use the same process-wide value). -/
def JWT_SECRET : String :=
  "netflix-secret-key-123"

/-- Token lifetime in hours (`JWT_EXPIRATION = 24`). -/
def JWT_EXPIRATION : Nat := 24

/-- Model of `create_jwt_token`: payload with `user_id` and
`exp = now + 24h`, signed with the process-wide secret. -/
def create_jwt_token (user_id : String) (now : Nat) : Token :=
  .signed ⟨some user_id, now + JWT_EXPIRATION * 3600⟩ JWT_SECRET

/-- Error taxonomy of PyJWT `jwt.decode` as caught by `get_current_user`:
ExpiredSignatureError, and every other InvalidTokenError. -/
inductive JwtError where
  | expiredSignature
  | invalidToken
deriving Repr, DecidableEq

/-- Model of PyJWT `jwt.decode(token, key, algorithms)`: the signature is
verified first, so a wrong key or a tampered encoding raises
InvalidTokenError before any claim is looked at; then the `exp` claim is
validated, raising ExpiredSignatureError when `exp <= now` (leeway 0). -/
def jwt_decode (t : Token) (key : String) (now : Nat) : Except JwtError Payload :=
  match t with
  | .signed payload k =>
    if k == key then
      if payload.exp ≤ now then .error .expiredSignature else .ok payload
    else .error .invalidToken
  | .tampered _ _ _ => .error .invalidToken

/-- Projection `User(**stored)`: pydantic keeps the declared `User` fields
and ignores the extra `password_hash` key. -/
def userOfStored (u : StoredUser) : User :=
  ⟨u.id, u.email, u.name, u.created_at⟩

/-- Model of `get_current_user`: decode the bearer token, check the
`user_id` claim (Python `if not user_id` also rejects the empty string),
look the user up by id, and build `User(**user)`. -/
def get_current_user (db : DB) (token : Token) (now : Nat) : Except HTTPError User :=
  match jwt_decode token JWT_SECRET now with
  | .error .expiredSignature => .error ⟨401, "Token expired"⟩
  | .error .invalidToken => .error ⟨401, "Invalid token"⟩
  | .ok payload =>
    match payload.user_id with
    | none => .error ⟨401, "Invalid token"⟩
    | some uid =>
      if uid == "" then .error ⟨401, "Invalid token"⟩
      else
        match db.users.find? (fun u => u.id == uid) with
        | none => .error ⟨401, "User not found"⟩
        | some u => .ok (userOfStored u)

/-- Model of POST /auth/register. The fresh uuid4 id and the current time
are passed explicitly. Returns the response body and the post-state; a
failing request leaves the database unchanged. -/
def register (db : DB) (email password name : String) (fresh_id : String) (now : Nat) :
    Except HTTPError (User × Token × String) × DB :=
  match db.users.find? (fun u => u.email == email) with
  | some _ => (.error ⟨400, "Email already registered"⟩, db)
  | none =>
    let user : User := ⟨fresh_id, email, name, now⟩
    let stored : StoredUser := ⟨fresh_id, email, name, now, hash_password password⟩
    (.ok (user, create_jwt_token fresh_id now, "Registration successful"),
      { db with users := db.users ++ [stored] })

/-- Model of POST /auth/login: find the user by email, verify the password;
both failure causes raise the same 401 "Invalid credentials". -/
def login (db : DB) (email password : String) (now : Nat) :
    Except HTTPError (User × Token × String) :=
  match db.users.find? (fun u => u.email == email) with
  | none => .error ⟨401, "Invalid credentials"⟩
  | some user_data =>
    if verify_password password user_data.password_hash then
      .ok (userOfStored user_data, create_jwt_token user_data.id now, "Login successful")
    else .error ⟨401, "Invalid credentials"⟩

/-- Model of GET /auth/me: returns the user resolved by `get_current_user`. -/
def get_me (db : DB) (token : Token) (now : Nat) : Except HTTPError User :=
  get_current_user db token now

/-- The mongo filter used by the list endpoints: a membership document
matching the (user, movie, list-type) triple. -/
def matchesTriple (uid mid lt : String) (r : UserList) : Bool :=
  r.user_id == uid && r.movie_id == mid && r.list_type == lt

/-- Model of POST /user/lists (`add_to_list`): refuse with 400 when a
document for the triple already exists, otherwise insert a new membership
document (fresh uuid4 id and timestamp passed explicitly). No validation of
`list_type` is performed. -/
def add_to_list (db : DB) (movie_id list_type : String) (current_user : User)
    (fresh_id : String) (now : Nat) : Except HTTPError String × DB :=
  match db.user_lists.find? (matchesTriple current_user.id movie_id list_type) with
  | some _ => (.error ⟨400, "Already in list"⟩, db)
  | none =>
    let doc : UserList := ⟨fresh_id, current_user.id, movie_id, list_type, now⟩
    (.ok ("Added to " ++ list_type), { db with user_lists := db.user_lists ++ [doc] })

/-- Model of DELETE /user/lists (`remove_from_list`): `delete_one` removes
the first matching document; `deleted_count == 0` maps to 404. -/
def remove_from_list (db : DB) (movie_id list_type : String) (current_user : User) :
    Except HTTPError String × DB :=
  if db.user_lists.any (matchesTriple current_user.id movie_id list_type) then
    (.ok ("Removed from " ++ list_type),
      { db with
          user_lists := db.user_lists.eraseP (matchesTriple current_user.id movie_id list_type) })
  else (.error ⟨404, "Item not found in list"⟩, db)

/-- Model of GET /user/lists/(list_type) (`get_user_list`): collect the
membership documents of the user for the list type, then return the catalog
movies whose id is among the referenced movie ids, in catalog order. -/
def get_user_list (db : DB) (list_type : String) (current_user : User) : List Movie :=
  let user_lists := db.user_lists.filter
    (fun r => r.user_id == current_user.id && r.list_type == list_type)
  let movie_ids := user_lists.map (fun r => r.movie_id)
  db.movies.filter (fun m => movie_ids.contains m.id)

/-- One list-endpoint request: the state transition of `add_to_list` or
`remove_from_list` (successful or not), for any caller, movie id, list
type, fresh id and time. -/
inductive ListStep : DB → DB → Prop where
  | add (db : DB) (movie_id list_type : String) (u : User) (fresh_id : String) (now : Nat) :
      ListStep db (add_to_list db movie_id list_type u fresh_id now).2
  | remove (db : DB) (movie_id list_type : String) (u : User) :
      ListStep db (remove_from_list db movie_id list_type u).2

/-- States reachable from `db` by a sequence of add/remove list requests. -/
inductive Reach : DB → DB → Prop where
  | refl (db : DB) : Reach db db
  | step (db db1 db2 : DB) (h1 : Reach db db1) (h2 : ListStep db1 db2) : Reach db db2

/-- Membership uniqueness: at most one document per (user, movie, list-type)
triple. -/
def UniqueTriples (s : List UserList) : Prop :=
  ∀ uid mid lt : String, s.countP (matchesTriple uid mid lt) ≤ 1

/-- Empty database (the state before any request). -/
def db0 : DB := ⟨[], [], [], []⟩

/-- An example authenticated caller. -/
def u0 : User := ⟨"u0", "alice@example.com", "Alice", 0⟩

/-- Stored document of the example user, with the bcrypt hash of pw123. -/
def su0 : StoredUser := ⟨"u0", "alice@example.com", "Alice", 0, hash_password ("pw123")⟩

/-- Database holding exactly the example user. -/
def dbU : DB := ⟨[su0], [], [], []⟩

/-- Database state after u0 added movie m1 to favorites from the empty
state. -/
def dbA : DB := ⟨[], [], [], [⟨"r1", "u0", "m1", "favorites", 0⟩]⟩

/-- Equation for `add_to_list` when a document for the triple exists: the
request fails with 400 and the state is unchanged. -/
theorem add_to_list_eq_of_found (db : DB) (movie_id list_type : String) (u : User)
    (fresh_id : String) (now : Nat) (r : UserList)
    (hf : db.user_lists.find? (matchesTriple u.id movie_id list_type) = some r) :
    add_to_list db movie_id list_type u fresh_id now = (.error ⟨400, "Already in list"⟩, db) := by
  unfold add_to_list
  rw [hf]

/-- Equation for `add_to_list` when no document for the triple exists: the
request succeeds and appends the new membership document. -/
theorem add_to_list_eq_of_not_found (db : DB) (movie_id list_type : String) (u : User)
    (fresh_id : String) (now : Nat)
    (hf : db.user_lists.find? (matchesTriple u.id movie_id list_type) = none) :
    add_to_list db movie_id list_type u fresh_id now
      = (.ok ("Added to " ++ list_type),
         { db with user_lists := db.user_lists ++ [⟨fresh_id, u.id, movie_id, list_type, now⟩] }) := by
  unfold add_to_list
  rw [hf]

/-- Erasing the first match from a list holding at most one match leaves no
match. -/
theorem countP_eraseP_self (p : UserList → Bool) (l : List UserList)
    (h : l.countP p ≤ 1) : (l.eraseP p).countP p = 0 := by
  induction l with
  | nil => simp
  | cons a l ih =>
    by_cases hpa : p a
    · rw [List.eraseP_cons_of_pos hpa]
      rw [List.countP_cons_of_pos p _ hpa] at h
      omega
    · rw [List.eraseP_cons_of_neg hpa, List.countP_cons_of_neg p _ hpa]
      rw [List.countP_cons_of_neg p _ hpa] at h
      exact ih h

/-- `add_to_list` preserves membership uniqueness. -/
theorem UniqueTriples_add (db : DB) (movie_id list_type : String) (u : User)
    (fresh_id : String) (now : Nat) (h : UniqueTriples db.user_lists) :
    UniqueTriples (add_to_list db movie_id list_type u fresh_id now).2.user_lists := by
  cases hf : db.user_lists.find? (matchesTriple u.id movie_id list_type) with
  | some r =>
    rw [add_to_list_eq_of_found db movie_id list_type u fresh_id now r hf]
    exact h
  | none =>
    rw [add_to_list_eq_of_not_found db movie_id list_type u fresh_id now hf]
    intro uid mid lt
    rw [show ({ db with
        user_lists := db.user_lists ++ [⟨fresh_id, u.id, movie_id, list_type, now⟩] } : DB).user_lists
      = db.user_lists ++ [⟨fresh_id, u.id, movie_id, list_type, now⟩] from rfl]
    rw [List.countP_append]
    by_cases hm : matchesTriple uid mid lt ⟨fresh_id, u.id, movie_id, list_type, now⟩ = true
    · obtain ⟨⟨e1, e2⟩, e3⟩ : (u.id = uid ∧ movie_id = mid) ∧ list_type = lt := by
        simpa [matchesTriple] using hm
      subst e1
      subst e2
      subst e3
      have h0 : db.user_lists.countP (matchesTriple u.id movie_id list_type) = 0 := by
        rw [List.countP_eq_zero]
        exact List.find?_eq_none.mp hf
      rw [h0]
      simp [List.countP_cons, hm]
    · have h1 : List.countP (matchesTriple uid mid lt)
          [(⟨fresh_id, u.id, movie_id, list_type, now⟩ : UserList)] = 0 := by
        simp [List.countP_cons, hm]
      rw [h1]
      simpa using h uid mid lt

/-- `remove_from_list` preserves membership uniqueness. -/
theorem UniqueTriples_remove (db : DB) (movie_id list_type : String) (u : User)
    (h : UniqueTriples db.user_lists) :
    UniqueTriples (remove_from_list db movie_id list_type u).2.user_lists := by
  unfold remove_from_list
  split
  · intro uid mid lt
    exact le_trans ((List.eraseP_sublist _).countP_le _) (h uid mid lt)
  · exact h

/-- Every list-endpoint request preserves membership uniqueness. -/
theorem UniqueTriples_ListStep (db1 db2 : DB) (hstep : ListStep db1 db2)
    (h : UniqueTriples db1.user_lists) : UniqueTriples db2.user_lists := by
  cases hstep with
  | add movie_id list_type u fresh_id now =>
    exact UniqueTriples_add db1 movie_id list_type u fresh_id now h
  | remove movie_id list_type u =>
    exact UniqueTriples_remove db1 movie_id list_type u h

/-- C1: in every state reachable by any sequence of add/remove list requests
from a state with unique membership triples (in particular from the empty
store), each (user, movie, list-type) triple has at most one membership
document; and `add_to_list` refuses to insert a second document for an
existing triple, leaving the state unchanged. -/
theorem membership_uniqueness_invariant :
    (∀ db db2 : DB, UniqueTriples db.user_lists → Reach db db2 →
      UniqueTriples db2.user_lists)
    ∧ (∀ (db : DB) (movie_id list_type : String) (u : User) (fresh_id : String)
        (now : Nat) (r : UserList),
        db.user_lists.find? (matchesTriple u.id movie_id list_type) = some r →
        add_to_list db movie_id list_type u fresh_id now
          = (.error ⟨400, "Already in list"⟩, db)) := by
  constructor
  · intro db db2 h0 hr
    induction hr with
    | refl => exact h0
    | step db1 db2 h1 h2 ih => exact UniqueTriples_ListStep db1 db2 h2 ih
  · exact fun db movie_id list_type u fresh_id now r hf =>
      add_to_list_eq_of_found db movie_id list_type u fresh_id now r hf

/-- Witness for C1: the state reached by one successful add from the empty
store has unique membership triples. -/
theorem membership_uniqueness_invariant_witness :
    UniqueTriples (add_to_list db0 ("m1") ("favorites") u0 ("r1") 0).2.user_lists :=
  membership_uniqueness_invariant.1 db0 _
    (fun uid mid lt => by simp [db0])
    (Reach.step db0 db0 _ (Reach.refl db0) (ListStep.add db0 ("m1") ("favorites") u0 ("r1") 0))

/-- C4: after a successful add of a triple, adding the same triple again
fails with 400 "Already in list" and changes nothing (no idempotent no-op);
after a successful remove of a triple from a state with unique triples,
removing it again fails with 404 "Item not found in list" and changes
nothing. -/
theorem duplicate_add_and_double_remove :
    (∀ (db db1 : DB) (u : User) (movie_id list_type fid1 fid2 msg : String) (n1 n2 : Nat),
        add_to_list db movie_id list_type u fid1 n1 = (.ok msg, db1) →
        add_to_list db1 movie_id list_type u fid2 n2
          = (.error ⟨400, "Already in list"⟩, db1))
    ∧ (∀ (db db1 : DB) (u : User) (movie_id list_type msg : String),
        UniqueTriples db.user_lists →
        remove_from_list db movie_id list_type u = (.ok msg, db1) →
        remove_from_list db1 movie_id list_type u
          = (.error ⟨404, "Item not found in list"⟩, db1)) := by
  constructor
  · intro db db1 u movie_id list_type fid1 fid2 msg n1 n2 hadd
    cases hf : db.user_lists.find? (matchesTriple u.id movie_id list_type) with
    | some r =>
      rw [add_to_list_eq_of_found db movie_id list_type u fid1 n1 r hf] at hadd
      simp at hadd
    | none =>
      rw [add_to_list_eq_of_not_found db movie_id list_type u fid1 n1 hf] at hadd
      have hdb1 : db1 = { db with
          user_lists := db.user_lists ++ [⟨fid1, u.id, movie_id, list_type, n1⟩] } :=
        (congrArg Prod.snd hadd).symm
      subst hdb1
      apply add_to_list_eq_of_found _ _ _ _ _ _ ⟨fid1, u.id, movie_id, list_type, n1⟩
      rw [show ({ db with
          user_lists := db.user_lists ++ [⟨fid1, u.id, movie_id, list_type, n1⟩] } : DB).user_lists
        = db.user_lists ++ [⟨fid1, u.id, movie_id, list_type, n1⟩] from rfl]
      rw [List.find?_append, hf]
      simp [matchesTriple]
  · intro db db1 u movie_id list_type msg hU hrem
    by_cases hb : db.user_lists.any (matchesTriple u.id movie_id list_type) = true
    · have heq : remove_from_list db movie_id list_type u
          = (.ok ("Removed from " ++ list_type),
             { db with
                 user_lists := db.user_lists.eraseP (matchesTriple u.id movie_id list_type) }) := by
        simp [remove_from_list, hb]
      rw [heq] at hrem
      have hdb1 : db1 = { db with
          user_lists := db.user_lists.eraseP (matchesTriple u.id movie_id list_type) } :=
        (congrArg Prod.snd hrem).symm
      subst hdb1
      have h0 : (db.user_lists.eraseP (matchesTriple u.id movie_id list_type)).countP
          (matchesTriple u.id movie_id list_type) = 0 :=
        countP_eraseP_self _ _ (hU u.id movie_id list_type)
      have hany : (db.user_lists.eraseP (matchesTriple u.id movie_id list_type)).any
          (matchesTriple u.id movie_id list_type) = false := by
        rw [List.any_eq_false]
        exact List.countP_eq_zero.mp h0
      simp [remove_from_list, hany]
    · have hb2 : db.user_lists.any (matchesTriple u.id movie_id list_type) = false := by
        simpa using hb
      have heq : remove_from_list db movie_id list_type u
          = (.error ⟨404, "Item not found in list"⟩, db) := by
        simp [remove_from_list, hb2]
      rw [heq] at hrem
      simp at hrem

/-- Witness for C4: concrete duplicate add and double remove both fail. -/
theorem duplicate_add_and_double_remove_witness :
    add_to_list dbA ("m1") ("favorites") u0 ("r2") 1
      = (.error ⟨400, "Already in list"⟩, dbA)
    ∧ remove_from_list db0 ("m1") ("favorites") u0
      = (.error ⟨404, "Item not found in list"⟩, db0) :=
  ⟨duplicate_add_and_double_remove.1 db0 dbA u0 ("m1") ("favorites") ("r1") ("r2")
      ("Added to favorites") 0 1 (by rfl),
    duplicate_add_and_double_remove.2 dbA db0 u0 ("m1") ("favorites") ("Removed from favorites")
      (fun uid mid lt => by
        simp [dbA, List.countP_cons]
        split <;> simp)
      (by rfl)⟩

/-- C10 counterexample: from the empty store, `add_to_list` accepts the
list-type "random" — a value outside the documented set — and the reachable
post-state stores a membership document whose list_type is neither
"favorites" nor "watched". -/
theorem list_type_not_validated_counterexample :
    Reach db0 (add_to_list db0 ("m1") ("random") u0 ("r1") 0).2
    ∧ (add_to_list db0 ("m1") ("random") u0 ("r1") 0).1 = .ok ("Added to random")
    ∧ (add_to_list db0 ("m1") ("random") u0 ("r1") 0).2.user_lists
        = [⟨"r1", "u0", "m1", "random", 0⟩]
    ∧ ("random" ≠ "favorites" ∧ "random" ≠ "watched") := by
  refine ⟨Reach.step db0 db0 _ (Reach.refl db0)
      (ListStep.add db0 ("m1") ("random") u0 ("r1") 0), ?_, ?_, ?_, ?_⟩
  · rfl
  · rfl
  · decide
  · decide

/-- C10 amended: `add_to_list` performs no validation of the list-type; for
every string list_type (also outside the documented set), an add for an
absent triple succeeds and stores the list_type verbatim in the new
membership document. -/
theorem list_type_stored_verbatim (db : DB) (movie_id list_type : String) (u : User)
    (fresh_id : String) (now : Nat)
    (h : db.user_lists.find? (matchesTriple u.id movie_id list_type) = none) :
    add_to_list db movie_id list_type u fresh_id now
      = (.ok ("Added to " ++ list_type),
         { db with user_lists := db.user_lists ++ [⟨fresh_id, u.id, movie_id, list_type, now⟩] }) :=
  add_to_list_eq_of_not_found db movie_id list_type u fresh_id now h

/-- Witness for the amended C10: a concrete add with an undocumented
list-type succeeds and stores it verbatim. -/
theorem list_type_stored_verbatim_witness :
    add_to_list db0 ("m2") ("anything") u0 ("r9") 4
      = (.ok ("Added to " ++ "anything"),
         { db0 with user_lists := db0.user_lists ++ [⟨"r9", "u0", "m2", "anything", 4⟩] }) :=
  list_type_stored_verbatim db0 ("m2") ("anything") u0 ("r9") 4 (by decide)

/-- C2: a token issued for an existing user at time T is accepted by
`get_current_user` at every time in the window from T up to (excluding)
T + 24h, and is rejected with the 401 "Token expired" error at every time
at or after T + 24h (PyJWT raises ExpiredSignatureError when exp <= now). -/
theorem token_validity_window (db : DB) (uid : String) (u : StoredUser) (T now : Nat)
    (huid : uid ≠ "") (hu : db.users.find? (fun x => x.id == uid) = some u) :
    (T ≤ now → now < T + JWT_EXPIRATION * 3600 →
      get_current_user db (create_jwt_token uid T) now = .ok (userOfStored u))
    ∧ (T + JWT_EXPIRATION * 3600 ≤ now →
      get_current_user db (create_jwt_token uid T) now = .error ⟨401, "Token expired"⟩) := by
  constructor
  · intro h1 h2
    have hexp : ¬ (T + JWT_EXPIRATION * 3600 ≤ now) := by omega
    simp [get_current_user, create_jwt_token, jwt_decode, hexp, huid, hu]
  · intro h1
    simp [get_current_user, create_jwt_token, jwt_decode, h1]

/-- Witness for C2: a token issued at time 0 is accepted at time 100 and
rejected as expired at time 86400. -/
theorem token_validity_window_witness :
    get_current_user dbU (create_jwt_token ("u0") 0) 100 = .ok (userOfStored su0)
    ∧ get_current_user dbU (create_jwt_token ("u0") 0) 86400
        = .error ⟨401, "Token expired"⟩ :=
  ⟨(token_validity_window dbU ("u0") su0 0 100 (by decide) (by rfl)).1 (by omega) (by decide),
    (token_validity_window dbU ("u0") su0 0 86400 (by decide) (by rfl)).2 (by decide)⟩

/-- C3: registering a fresh email succeeds, and a subsequent login with the
same credentials succeeds and returns a user with the same identifier
(`verify_password p (hash_password p)` holds). -/
theorem register_login_round_trip (db : DB) (email password name fresh_id : String)
    (t1 t2 : Nat) (h : db.users.find? (fun u => u.email == email) = none) :
    ∃ (user : User) (tok : Token) (msg : String) (db2 : DB),
      register db email password name fresh_id t1 = (.ok (user, tok, msg), db2)
      ∧ ∃ (user2 : User) (tok2 : Token) (msg2 : String),
          login db2 email password t2 = .ok (user2, tok2, msg2) ∧ user2.id = user.id := by
  refine ⟨⟨fresh_id, email, name, t1⟩, create_jwt_token fresh_id t1, "Registration successful",
    { db with users := db.users ++ [⟨fresh_id, email, name, t1, hash_password password⟩] },
    ?_, ?_⟩
  · simp [register, h]
  · refine ⟨⟨fresh_id, email, name, t1⟩, create_jwt_token fresh_id t2, "Login successful",
      ?_, rfl⟩
    simp [login, List.find?_append, h, verify_password, userOfStored]

/-- Witness for C3: a concrete register followed by login round-trips with
the same user id. -/
theorem register_login_round_trip_witness :
    ∃ (user : User) (tok : Token) (msg : String) (db2 : DB),
      register db0 ("alice@example.com") ("pw123") ("Alice") ("u0") 0
        = (.ok (user, tok, msg), db2)
      ∧ ∃ (user2 : User) (tok2 : Token) (msg2 : String),
          login db2 ("alice@example.com") ("pw123") 5 = .ok (user2, tok2, msg2)
          ∧ user2.id = user.id :=
  register_login_round_trip db0 ("alice@example.com") ("pw123") ("Alice") ("u0") 0 5 (by rfl)

/-- C5: registering an email that some stored user already has fails with
the 400 "Email already registered" error, for every password and name, and
leaves the database unchanged (no new user document). -/
theorem register_email_taken (db : DB) (e password name fresh_id : String) (now : Nat)
    (h : ∃ u ∈ db.users, u.email = e) :
    register db e password name fresh_id now
      = (.error ⟨400, "Email already registered"⟩, db) := by
  obtain ⟨r, hfind⟩ : ∃ r, db.users.find? (fun u => u.email == e) = some r := by
    have hs : (db.users.find? (fun u => u.email == e)).isSome := by
      rw [List.find?_isSome]
      obtain ⟨u, hu, he⟩ := h
      exact ⟨u, hu, by simp [he]⟩
    exact Option.isSome_iff_exists.mp hs
  simp [register, hfind]

/-- Witness for C5: registering the taken email of the example user fails
with 400 and changes nothing. -/
theorem register_email_taken_witness :
    register dbU ("alice@example.com") ("other") ("Bob") ("u9") 7
      = (.error ⟨400, "Email already registered"⟩, dbU) :=
  register_email_taken dbU ("alice@example.com") ("other") ("Bob") ("u9") 7
    ⟨su0, by simp [dbU], rfl⟩

/-- C6: the two failure causes of `login` — unknown email and failed
password verification — both produce exactly the 401 "Invalid credentials"
error, and every failing login produces exactly that error. -/
theorem login_failure_indistinguishable (db : DB) (email password : String) (now : Nat) :
    (db.users.find? (fun u => u.email == email) = none →
      login db email password now = .error ⟨401, "Invalid credentials"⟩)
    ∧ (∀ u : StoredUser, db.users.find? (fun u => u.email == email) = some u →
        verify_password password u.password_hash = false →
        login db email password now = .error ⟨401, "Invalid credentials"⟩)
    ∧ (∀ e : HTTPError, login db email password now = .error e →
        e = ⟨401, "Invalid credentials"⟩) := by
  refine ⟨fun h => by simp [login, h], fun u hu hv => by simp [login, hu, hv], ?_⟩
  intro e he
  unfold login at he
  split at he
  · simp at he
    exact he.symm
  · split at he
    · simp at he
    · simp at he
      exact he.symm

/-- Witness for C6: a login with a wrong password fails with exactly the
401 "Invalid credentials" error. -/
theorem login_failure_indistinguishable_witness :
    login dbU ("alice@example.com") ("wrongpw") 3 = .error ⟨401, "Invalid credentials"⟩ :=
  (login_failure_indistinguishable dbU ("alice@example.com") ("wrongpw") 3).2.1
    su0 (by rfl) (by rfl)

/-- Counting a kept element is unchanged by filtering. -/
theorem count_filter_of_pos (p : Movie → Bool) (m : Movie) (l : List Movie)
    (h : p m = true) : (l.filter p).count m = l.count m := by
  induction l with
  | nil => rfl
  | cons a l ih =>
    by_cases hpa : p a = true
    · rw [List.filter_cons_of_pos hpa, List.count_cons, List.count_cons, ih]
    · rw [List.filter_cons_of_neg (by simpa using hpa), ih]
      have hne : (a == m) = false := by
        cases hab : a == m
        · rfl
        · exact absurd (by rw [eq_of_beq hab]; exact h) hpa
      rw [List.count_cons, hne]
      simp

/-- C7: after a successful add of a catalog movie to favorites, the list
endpoint returns a sequence containing that movie exactly once (memberships
are resolved, then the referenced movies are fetched from the catalog). -/
theorem add_then_list_contains_once (db : DB) (u : User) (m : Movie)
    (fresh_id : String) (now : Nat)
    (hcat : db.movies.count m = 1)
    (hnew : db.user_lists.find? (matchesTriple u.id m.id ("favorites")) = none) :
    (get_user_list (add_to_list db m.id ("favorites") u fresh_id now).2
      ("favorites") u).count m = 1 := by
  rw [add_to_list_eq_of_not_found db m.id ("favorites") u fresh_id now hnew]
  simp only [get_user_list]
  have hmem : (fun mv : Movie =>
      ((((db.user_lists ++ [(⟨fresh_id, u.id, m.id, "favorites", now⟩ : UserList)]).filter
        (fun r => r.user_id == u.id && r.list_type == "favorites")).map
          (fun r => r.movie_id)).contains mv.id)) m = true := by
    simp [List.filter_append]
  rw [count_filter_of_pos (fun mv : Movie =>
      ((((db.user_lists ++ [(⟨fresh_id, u.id, m.id, "favorites", now⟩ : UserList)]).filter
        (fun r => r.user_id == u.id && r.list_type == "favorites")).map
          (fun r => r.movie_id)).contains mv.id)) m db.movies hmem]
  exact hcat

/-- An example catalog movie. -/
def mov1 : Movie :=
  ⟨"m1", "The Matrix", "Matrix RU", "desc", "desc ru", 1999, 136, ["action"],
    "poster", "trailer", none, 0, 0⟩

/-- Database holding the example user and the example movie. -/
def dbM : DB := ⟨[su0], [], [mov1], []⟩

/-- Witness for C7: a concrete add followed by list returns the movie
exactly once. -/
theorem add_then_list_contains_once_witness :
    (get_user_list (add_to_list dbM mov1.id ("favorites") u0 ("r1") 0).2
      ("favorites") u0).count mov1 = 1 :=
  add_then_list_contains_once dbM u0 mov1 ("r1") 0 (by decide) (by decide)

/-- Replace every stored password hash using an arbitrary function; used to
state that responses do not depend on the stored hashes. -/
def withHashes (f : StoredUser → String) (db : DB) : DB :=
  { db with users := db.users.map (fun u => { u with password_hash := f u }) }

/-- Finding a user by id commutes with rewriting the password hashes. -/
theorem find?_users_withHashes (f : StoredUser → String) (l : List StoredUser) (uid : String) :
    (l.map (fun u => { u with password_hash := f u })).find? (fun u => u.id == uid)
      = (l.find? (fun u => u.id == uid)).map (fun u => { u with password_hash := f u }) := by
  rw [List.find?_map]
  rfl

/-- C8: the `User` value returned by register, login and /auth/me excludes
the password hash: the stored-to-response projection erases the hash field,
/auth/me responses are invariant under rewriting every stored hash, every
successful login returns exactly the projection of a stored document, and
the user returned by register does not depend on the password. -/
theorem password_hash_never_exposed :
    (∀ (s : StoredUser) (h : String),
      userOfStored { s with password_hash := h } = userOfStored s)
    ∧ (∀ (f : StoredUser → String) (db : DB) (tok : Token) (now : Nat),
        get_me (withHashes f db) tok now = get_me db tok now)
    ∧ (∀ (db : DB) (email password : String) (now : Nat) (u : User) (tok : Token)
        (msg : String),
        login db email password now = .ok (u, tok, msg) →
        ∃ s ∈ db.users, u = userOfStored s)
    ∧ (∀ (db : DB) (email p1 p2 name fresh_id : String) (now : Nat),
        (register db email p1 name fresh_id now).1.map (fun r => r.1)
          = (register db email p2 name fresh_id now).1.map (fun r => r.1)) := by
  refine ⟨fun s h => rfl, ?_, ?_, ?_⟩
  · intro f db tok now
    unfold get_me get_current_user withHashes
    cases jwt_decode tok JWT_SECRET now with
    | error e => cases e <;> rfl
    | ok payload =>
      cases payload with
      | mk puid pexp =>
        cases puid with
        | none => rfl
        | some uid =>
          by_cases hb : (uid == "") = true
          · simp [hb]
          · have hb2 : (uid == "") = false := by simpa using hb
            simp only [hb2, Bool.false_eq_true, if_false]
            rw [find?_users_withHashes f db.users uid]
            cases db.users.find? (fun u => u.id == uid) with
            | none => rfl
            | some u => rfl
  · intro db email password now u tok msg hlogin
    unfold login at hlogin
    split at hlogin
    · simp at hlogin
    · rename_i s hf
      split at hlogin
      · simp at hlogin
        exact ⟨s, List.mem_of_find?_eq_some hf, hlogin.1.symm⟩
      · simp at hlogin
  · intro db email p1 p2 name fresh_id now
    unfold register
    cases hf : db.users.find? (fun u => u.email == email) <;> rfl

/-- Witness for C8: a concrete successful login returns the projection of a
stored user document. -/
theorem password_hash_never_exposed_witness :
    ∃ s ∈ dbU.users, (⟨"u0", "alice@example.com", "Alice", 0⟩ : User) = userOfStored s :=
  password_hash_never_exposed.2.2.1 dbU ("alice@example.com") ("pw123") 9
    ⟨"u0", "alice@example.com", "Alice", 0⟩ (create_jwt_token ("u0") 9)
    ("Login successful") (by rfl)

/-- C9: presenting any one-byte modification of any token to
`get_current_user` yields exactly the 401 "Invalid token" error — never
success and never "Token expired". In the symbolic ideal-MAC model of
HMAC-SHA256, a modified encoding never verifies, and PyJWT checks the
signature before the expiration claim. -/
theorem token_tamper_rejected (db : DB) (t : Token) (byte_pos new_byte : Nat) (now : Nat) :
    get_current_user db (.tampered t byte_pos new_byte) now
      = .error ⟨401, "Invalid token"⟩ := rfl

end PodPivo
